import Mathlib

/-!
Verification development for the Ticket_system repository.

The definitions below are a shallow embedding of the parts of the code that
the verified properties are about:

* the priority classifier `PostgresDB.determine_priority` and the priority
  actually stored by `PostgresDB.create_ticket` (src/db/postgres.py);
* the SLA calculator `PostgresDB.calculate_sla_deadline` and the timing
  fields of a created ticket (src/db/postgres.py);
* the shift-aware round-robin technician selection
  `PostgresDB.get_on_shift_technician_round_robin` together with the on-shift
  test used by `PostgresDB.get_active_technician_count` (src/db/postgres.py);
* the conversation state machine: the `state` field dynamics of
  `ChatHandler.handle_action` (src/services/chat_handler.py), the request-flow
  and feedback handlers (src/services/request_flow_handler.py,
  src/services/feedback_handler.py), and the `/api/chat` endpoint wrapper
  (src/app.py);
* the per-solution feedback accumulator and `PostgresDB.save_all_feedback`.

Conventions: machine clock readings are explicit parameters (each call of
`datetime.now`/`CURRENT_TIMESTAMP` in the source is a separate parameter);
the `random.choice` draw is an explicit `Fin 5` index into the literal list
the source passes to it; calls to external collaborators (taxonomy data
service, AI agent, database inserts) are represented by oracle inputs that
capture the outcome the surrounding code branches on.
-/

namespace TicketSystem

/-- Python's `pat in s` substring test. -/
def strContains (s pat : String) : Bool :=
  decide (List.IsInfix pat.data s.data)

/-- Python's `str.lower`, character by character (all keywords in the
repository are ASCII). -/
def lowerStr (s : String) : String :=
  String.mk (s.data.map Char.toLower)

/-- Python truthiness of an optional string: `None` and `""` are falsy. -/
def optTruthy (o : Option String) : Bool :=
  o.getD "" != ""

/-! ## Priority classifier

`PostgresDB.determine_priority` (src/db/postgres.py:606-691). -/

/-- A row of the `priority_rules` table (keyword, optional category scope,
priority), as consulted by `determine_priority`. -/
structure PriorityRule where
  keyword : String
  category : Option String
  priority : String
deriving DecidableEq

/-- `priority_order = {'P2': 3, 'P3': 2, 'P4': 1}` read with `.get(p, 0)`. -/
def priority_order (p : String) : Nat :=
  if p = "P2" then 3 else if p = "P3" then 2 else if p = "P4" then 1 else 0

/-- One iteration of the rule loop in `determine_priority`
(src/db/postgres.py:620-627): skip when the keyword is absent from the text,
skip when the rule carries a truthy category different from the supplied one,
otherwise keep the rule if it improves `max_order`.  The accumulator is
`(max_order, max_priority)`. -/
def ruleStep (text : String) (category : Option String)
    (acc : Nat × Option String) (rule : PriorityRule) : Nat × Option String :=
  if strContains text (lowerStr rule.keyword) then
    if optTruthy rule.category && (rule.category != category) then acc
    else
      let ro := priority_order rule.priority
      if ro > acc.1 then (ro, some rule.priority) else acc
  else acc

/-- The static `smart_category_priorities` table (src/db/postgres.py:634-639). -/
def smart_category_priorities (c : String) : Option String :=
  if c = "Network Connection Issues" then some "P2"
  else if c = "Operating System Issues" then some "P3"
  else if c = "PC / Laptop / Peripherals / Accessories Issues" then some "P3"
  else if c = "Printer / Scanner / Copier Issues" then some "P4"
  else none

/-- The extended `p2_keywords` list (src/db/postgres.py:649-658). -/
def p2_keywords : List String :=
  ["server down", "outage", "all users affected", "entire department",
   "production down", "business critical", "security breach", "data loss",
   "system failure", "complete failure", "emergency",
   "cannot work", "blocked", "unable to access", "vpn not working",
   "cannot login", "authentication failed", "password expired",
   "locked out", "urgent", "deadline", "meeting", "presentation",
   "network down", "no internet", "cannot connect", "not responding",
   "frozen", "crashes", "blue screen", "boot failure", "corrupt"]

/-- The `p4_keywords` list (src/db/postgres.py:660-664). -/
def p4_keywords : List String :=
  ["question", "inquiry", "when", "how to", "information",
   "minor", "cosmetic", "font", "preference", "suggestion",
   "would like", "nice to have", "improvement", "training"]

/-- The literal list passed to `random.choice` on the fallback path
(src/db/postgres.py:688). -/
def randFallbackChoices : List String := ["P3", "P3", "P3", "P4", "P4"]

/-- The smart-category merge of `determine_priority`
(src/db/postgres.py:641-646): a truthy category found in the static table
replaces `(max_order, max_priority)` when its order is higher. -/
def mergeCategory (category : Option String) (acc : Nat × Option String) :
    Nat × Option String :=
  match category with
  | some c =>
      if c != "" then
        match smart_category_priorities c with
        | some cp =>
            if priority_order cp > acc.1 then (priority_order cp, some cp)
            else acc
        | none => acc
      else acc
  | none => acc

/-- The straight-line tail of `determine_priority` after the category merge
(src/db/postgres.py:666-691): extended P2 keywords (unless already at P2),
then P4 keywords when nothing matched, then any remaining rule match, then
the pseudo-random fallback for a truthy category, then the P3 default. -/
def dpTail (text : String) (category : Option String) (rand : Fin 5)
    (acc2 : Nat × Option String) : String :=
  if p2_keywords.any (strContains text) && decide (acc2.1 < 3) then "P2"
  else if acc2.2.isNone && p4_keywords.any (strContains text) then "P4"
  else if optTruthy acc2.2 then acc2.2.getD ""
  else if optTruthy category then
    randFallbackChoices.get ⟨rand.1, by simp [randFallbackChoices]⟩
  else "P3"

/-- `PostgresDB.determine_priority` (src/db/postgres.py:606-691): scan the
database rules, return immediately on a P2-tier match, otherwise merge the
static category table and run the keyword/fallback tail.  `rand` stands for
the index drawn by `random.choice` on the no-match fallback path. -/
def determine_priority (rules : List PriorityRule) (subject description : String)
    (category : Option String) (rand : Fin 5) : String :=
  let text := lowerStr (subject ++ " " ++ description)
  let acc := rules.foldl (ruleStep text category) (0, none)
  if optTruthy acc.2 && decide (acc.1 ≥ 3) then acc.2.getD ""
  else dpTail text category rand (mergeCategory category acc)

/-- The priority actually stored by `PostgresDB.create_ticket`:
`priority = self.determine_priority(subject, description, category) or priority`
(src/db/postgres.py:418).  Python `or` keeps the left operand when it is a
truthy (non-empty) string. -/
def create_ticket_priority (rules : List PriorityRule) (subject description : String)
    (category : Option String) (priorityArg : String) (rand : Fin 5) : String :=
  let p := determine_priority rules subject description category rand
  if p != "" then p else priorityArg

/-! ## SLA calculator

`PostgresDB.calculate_sla_deadline` (src/db/postgres.py:577-582).  Times are
in seconds. -/

/-- A row of the `sla_config` table. -/
structure SlaConfig where
  priority : String
  sla_hours : Int
deriving DecidableEq

/-- `PostgresDB.get_sla_by_priority`: first row of
`SELECT * FROM sla_config WHERE priority = %s`. -/
def get_sla_by_priority (cfg : List SlaConfig) (p : String) : Option SlaConfig :=
  cfg.find? (fun s => s.priority == p)

/-- `PostgresDB.calculate_sla_deadline`: `now` is the
`datetime.now(timezone.utc)` reading taken inside the function itself. -/
def calculate_sla_deadline (cfg : List SlaConfig) (priority : String) (now : Int) : Int :=
  match get_sla_by_priority cfg priority with
  | some s => now + s.sla_hours * 3600
  | none => now + 24 * 3600

/-- The configured SLA duration for a priority: `sla_hours` when the priority
is present in the table, the fixed 24-hour default otherwise. -/
def sla_duration (cfg : List SlaConfig) (priority : String) : Int :=
  match get_sla_by_priority cfg priority with
  | some s => s.sla_hours * 3600
  | none => 24 * 3600

/-! ## Shift-aware round-robin technician selection

`PostgresDB.get_on_shift_technician_round_robin` (src/db/postgres.py:333-368)
and the on-shift test of `PostgresDB.get_active_technician_count`
(src/db/postgres.py:871-889).  Times of day are in minutes since midnight;
the `id` field stands for the technician's primary key under the linear
order `ORDER BY t.id` sorts by. -/

/-- A row of the `technicians` table (the fields the selection reads). -/
structure Technician where
  id : Nat
  name : String
  active_status : Bool
  shift_start : Option Nat
  shift_end : Option Nat
deriving DecidableEq

/-- A row of the `tickets` table as seen through the
`LEFT JOIN tickets tk ON t.id = tk.assigned_to_id`. -/
structure TicketRow where
  assigned_to_id : Option Nat
  updated_at : Nat
deriving DecidableEq

/-- The shift-window test in the round-robin query's WHERE clause
(src/db/postgres.py:357-363): half-open `[start, end)` for a normal shift
(`shift_start < shift_end`), wrap-around `now ≥ start OR now < end` for an
overnight shift (`shift_start > shift_end`). -/
def shiftCoversRR (s e now : Nat) : Bool :=
  (decide (s < e) && decide (now ≥ s) && decide (now < e)) ||
  (decide (s > e) && (decide (now ≥ s) || decide (now < e)))

/-- The shift-window test in `get_active_technician_count`
(src/db/postgres.py:878-886): `now BETWEEN shift_start AND shift_end`
(inclusive on both ends) when `shift_start <= shift_end`, otherwise
`now >= shift_start OR now <= shift_end`. -/
def shiftCoversCount (s e now : Nat) : Bool :=
  if s ≤ e then decide (s ≤ now) && decide (now ≤ e)
  else decide (now ≥ s) || decide (now ≤ e)

/-- `MAX(tk.updated_at)` over the tickets currently assigned to the
technician (`GROUP BY t.id`); `none` when no ticket is assigned (the SQL
NULL produced by the LEFT JOIN). -/
def last_assigned_at (tickets : List TicketRow) (tid : Nat) : Option Nat :=
  ((tickets.filter (fun tk => tk.assigned_to_id == some tid)).map
    (fun tk => tk.updated_at)).max?

/-- The sort key of `ORDER BY last_assigned_at ASC NULLS FIRST, t.id ASC`. -/
def rrKey (tickets : List TicketRow) (t : Technician) : Option Nat × Nat :=
  (last_assigned_at tickets t.id, t.id)

/-- Strict "comes before" on sort keys under
`ORDER BY last_assigned_at ASC NULLS FIRST, t.id ASC`. -/
def rrBefore (a b : Option Nat × Nat) : Bool :=
  match a.1, b.1 with
  | none, none => decide (a.2 < b.2)
  | none, some _ => true
  | some _, none => false
  | some x, some y => decide (x < y) || (decide (x = y) && decide (a.2 < b.2))

/-- The candidate rows of the round-robin query: active technicians with
non-null shift columns whose shift covers the current IST time. -/
def rrCandidates (techs : List Technician) (nowIst : Nat) : List Technician :=
  techs.filter (fun t =>
    t.active_status &&
    match t.shift_start, t.shift_end with
    | some s, some e => shiftCoversRR s e nowIst
    | _, _ => false)

/-- Keep the row that comes first under the ORDER BY. -/
def rrStep (tickets : List TicketRow) (acc : Option Technician)
    (t : Technician) : Option Technician :=
  match acc with
  | none => some t
  | some b => if rrBefore (rrKey tickets t) (rrKey tickets b) then some t else some b

/-- The first row of a candidate list under the ORDER BY (its minimum under
`rrBefore`). -/
def rrPick (tickets : List TicketRow) (cands : List Technician)
    (acc : Option Technician) : Option Technician :=
  cands.foldl (rrStep tickets) acc

/-- `PostgresDB.get_on_shift_technician_round_robin`: the first candidate row
under `ORDER BY last_assigned_at ASC NULLS FIRST, t.id ASC LIMIT 1`, i.e. the
minimum of the candidates under `rrBefore`. -/
def get_on_shift_technician_round_robin (techs : List Technician)
    (tickets : List TicketRow) (nowIst : Nat) : Option Technician :=
  rrPick tickets (rrCandidates techs nowIst) none

/-! ## Ticket creation

`PostgresDB.create_ticket` (src/db/postgres.py:412-449) and
`PostgresDB.auto_assign_ticket` (src/db/postgres.py:370-391). -/

/-- The fields of a `tickets` row that `create_ticket` determines.  The
INSERT does not supply `created_at`; the database fills it with its own
clock at insert time. -/
structure Ticket where
  id : String
  user_id : String
  category : Option String
  subject : String
  description : String
  priority : String
  status : String
  sla_deadline : Int
  created_at : Int
  assigned_to_id : Option Nat
  assigned_to : Option String
deriving DecidableEq

/-- `PostgresDB.auto_assign_ticket`: pick the round-robin technician; when
none is on shift the ticket is left untouched and `none` is returned,
otherwise the ticket is updated to `In Progress` with the technician's id
and name. -/
def auto_assign_ticket (techs : List Technician) (tickets : List TicketRow)
    (nowIst : Nat) (t : Ticket) : Ticket × Option Technician :=
  match get_on_shift_technician_round_robin techs tickets nowIst with
  | none => (t, none)
  | some tech =>
      ({ t with assigned_to_id := some tech.id, assigned_to := some tech.name,
                status := "In Progress" }, some tech)

/-- `PostgresDB.create_ticket`.  `nowApp` is the application clock reading
taken inside `calculate_sla_deadline`; `nowDb` is the database clock reading
that fills `created_at` at insert time; `nowIst` is the IST time-of-day used
by the round-robin selection; `assignRaises` models the caught exception
branch around `auto_assign_ticket` (src/db/postgres.py:441-447), after which
the already-created ticket is returned unassigned. -/
def create_ticket (rules : List PriorityRule) (cfg : List SlaConfig)
    (techs : List Technician) (tickets : List TicketRow)
    (id user_id subject description : String) (category : Option String)
    (priorityArg : String) (rand : Fin 5) (nowApp nowDb : Int) (nowIst : Nat)
    (assignRaises : Bool) : Ticket :=
  let priority := create_ticket_priority rules subject description category priorityArg rand
  let base : Ticket :=
    { id := id, user_id := user_id, category := category,
      subject := subject, description := description,
      priority := priority, status := "Open",
      sla_deadline := calculate_sla_deadline cfg priority nowApp,
      created_at := nowDb,
      assigned_to_id := none, assigned_to := none }
  if assignRaises then base
  else (auto_assign_ticket techs tickets nowIst base).1

/-! ## Conversation state machine

The `state` field dynamics of `ChatHandler.handle_action`
(src/services/chat_handler.py), the request-flow handlers
(src/services/request_flow_handler.py), the feedback handlers
(src/services/feedback_handler.py) and the `/api/chat` endpoint wrapper
(src/app.py:550-794).  The session is projected to the fields the state
transitions read and write: the `state` string and the navigation stack
(most recent entry first; the Python list appends/pops at the end).
Collaborator calls are represented by oracle inputs: the value carried by a
button action, whether `int(...)` parsing succeeds, whether the taxonomy
lookup finds a solution, and the outcome of the AI-agent call. -/

/-- The projected conversation session. -/
structure ConvState where
  state : String
  navStack : List (String × String)
deriving DecidableEq

/-- `ChatHandler.create_initial_state` (state and navigation stack). -/
def create_initial_state : ConvState :=
  { state := "initial", navStack := [] }

/-- Outcome of the AI-agent call inside `ChatHandler._handle_free_text`
(src/services/chat_handler.py:590-684): the agent created a ticket, escalated
without a ticket id, returned a solution, or raised — in which case the
keyword-search fallback runs and either finds a match or offers a ticket. -/
inductive AgentOutcome
  | ticketCreated
  | escalatedNoTicket
  | solution
  | raises (fallbackFound : Bool)
deriving DecidableEq

/-- The action vocabulary of `ChatHandler.handle_action`
(src/services/chat_handler.py:81-217).  Constructors carry the parts of the
request payload and collaborator outcomes that the state transition branches
on: `select_issue` carries whether `int(value)` parses and whether the
taxonomy lookup finds the solution; `free_text` carries whether the stripped
message is non-empty and the agent outcome; `submit_rating` carries whether
`int(value)` parses (a failure raises and is caught, leaving the session
untouched); `unknown` is any action string outside the vocabulary. -/
inductive ChatAction
  | start
  | restart
  | select_ticket_type (value : String)
  | select_smart_category (value : String)
  | select_category (value : String)
  | select_type (value : String)
  | select_item (value : String)
  | select_issue (value : String) (valueParses : Bool) (solutionFound : Bool)
  | other_issue
  | free_text (stripNonEmpty : Bool) (agent : AgentOutcome)
  | solution_resolved
  | solution_not_resolved
  | agent_continue
  | preview_ticket
  | confirm_ticket
  | decline_ticket
  | go_back
  | end_action
  | select_request_category (value : String)
  | select_hardware_item (value : String)
  | select_hardware_brand (value : String)
  | select_software_action (value : String)
  | select_software_item (value : String)
  | select_access_type (value : String)
  | confirm_internet_access
  | select_folder_permission (value : String)
  | submit_request
  | check_approval
  | solution_helpful (value : String)
  | submit_rating (valueParses : Bool)
  | skip_rating
  | submit_feedback_text
  | skip_feedback_text
  | unknown (name : String)
deriving DecidableEq

/-- `ChatHandler._handle_start`: reset to the initial session, then move to
`awaiting_ticket_type` (src/services/chat_handler.py:219-234). -/
def handle_start : ConvState :=
  { create_initial_state with state := "awaiting_ticket_type" }

/-- `ChatHandler._handle_select_ticket_type`
(src/services/chat_handler.py:236-297): `Request` and `Incident` reset the
navigation stack to the single ticket-type entry; any other value re-runs
the start handler. -/
def handle_select_ticket_type (v : String) : ConvState :=
  if v = "Request" then
    { state := "request_category", navStack := [("ticket_type", "Request")] }
  else if v = "Incident" then
    { state := "awaiting_smart_category", navStack := [("ticket_type", "Incident")] }
  else handle_start

/-- `ChatHandler._handle_free_text` (src/services/chat_handler.py:543-684):
an empty stripped message leaves the session untouched; request-flow and
feedback text states are routed to their handlers; otherwise the AI agent
(or, if it raises, the keyword-search fallback
`_handle_free_text_fallback`) decides the next state. -/
def handle_free_text (stripNonEmpty : Bool) (agent : AgentOutcome)
    (st : ConvState) : ConvState :=
  if !stripNonEmpty then st
  else if st.state = "request_justification" then { st with state := "request_preview" }
  else if st.state = "request_vpn_reason" then { st with state := "request_preview" }
  else if st.state = "request_shared_folder_path" then
    { state := "request_shared_folder_permission",
      navStack := ("request_folder_path", "path") :: st.navStack }
  else if st.state = "request_software_type" then { st with state := "request_preview" }
  else if st.state = "end_feedback_text" then { st with state := "feedback_complete" }
  else
    match agent with
    | .ticketCreated => { st with state := "ticket_created" }
    | .escalatedNoTicket => { st with state := "awaiting_ticket_confirmation" }
    | .solution => { st with state := "showing_solution" }
    | .raises found =>
        if found then { st with state := "showing_solution" }
        else { st with state := "awaiting_ticket_confirmation" }

/-- The incident-flow branch targets of `ChatHandler._handle_go_back`
(src/services/chat_handler.py:913-994); `none` falls through to the default
"go to start". -/
def incident_go_back_state (prev_level : String) : Option String :=
  if prev_level = "ticket_type" then some "awaiting_smart_category"
  else if prev_level = "smart_category" then some "awaiting_category"
  else if prev_level = "category" then some "awaiting_type"
  else if prev_level = "type" then some "awaiting_item"
  else if prev_level = "item" then some "awaiting_issue"
  else none

/-- The branch targets of `ChatHandler._handle_request_go_back`
(src/services/chat_handler.py:1002-1173); `none` falls through to the
default "go to start". -/
def request_go_back_state (prev_level prev_value : String) : Option String :=
  if prev_level = "ticket_type" && prev_value = "Request" then some "request_category"
  else if prev_level = "request_category" then some "request_category"
  else if prev_level = "request_hardware_type" then some "request_hardware_type"
  else if prev_level = "request_hardware_brand" then some "request_hardware_brand"
  else if prev_level = "request_software_action" then some "request_software_action"
  else if prev_level = "request_software_type" then some "request_software_type"
  else if prev_level = "request_access_type" then some "request_access_type"
  else if prev_level = "request_access_folder" then some "request_shared_folder_path"
  else if prev_level = "request_folder_path" then some "request_shared_folder_permission"
  else if prev_level = "request_internet_confirm" || prev_level = "request_access_vpn"
       || prev_level = "request_folder_permission" then some "request_access_type"
  else none

/-- `ChatHandler._handle_go_back` (src/services/chat_handler.py:875-1000).
Returns the updated session and whether the handler asked the endpoint to go
to start (`go_to_start`): a stack with at most one entry is left unpopped;
otherwise the top entry is popped and the new top decides the state, request
levels (or a `Request` ticket type) being routed to the request variant. -/
def handle_go_back (st : ConvState) : ConvState × Bool :=
  match st.navStack with
  | [] => (st, true)
  | [_] => (st, true)
  | _ :: rest =>
      match rest with
      | [] => (st, true)
      | (prev_level, prev_value) :: _ =>
          if prev_level.startsWith "request_"
             || (prev_level = "ticket_type" && prev_value = "Request") then
            match request_go_back_state prev_level prev_value with
            | some s => ({ state := s, navStack := rest }, false)
            | none => ({ st with navStack := rest }, true)
          else
            match incident_go_back_state prev_level with
            | some s => ({ state := s, navStack := rest }, false)
            | none => ({ st with navStack := rest }, true)

/-- The hardware items that have a brand list in `HARDWARE_BRANDS`
(src/services/request_flow_handler.py:8-59). -/
def hardware_brands_keys : List String :=
  ["Laptop", "Desktop", "Monitor", "Keyboard", "Mouse", "Headset", "Webcam",
   "Docking Station"]

/-- `request_flow_handler.handle_request_category`
(src/services/request_flow_handler.py:149-198): the state is first set to
`request_category` and the entry pushed, then the three known categories
override the state; an unknown value returns `None` to the dispatcher with
the session left in `request_category`. -/
def handle_request_category (v : String) (st : ConvState) : ConvState :=
  let st1 : ConvState :=
    { state := "request_category", navStack := ("request_category", v) :: st.navStack }
  if v = "hardware" then { st1 with state := "request_hardware_type" }
  else if v = "software" then { st1 with state := "request_software_action" }
  else if v = "access" then { st1 with state := "request_access_type" }
  else st1

/-- `request_flow_handler.handle_hardware_item`
(src/services/request_flow_handler.py:201-235): `Other Hardware` and items
with a brand list stay in `request_hardware_brand`; an item with no brand
list falls through to the preview. -/
def handle_hardware_item (v : String) (st : ConvState) : ConvState :=
  let st1 : ConvState :=
    { state := "request_hardware_brand",
      navStack := ("request_hardware_type", v) :: st.navStack }
  if v = "Other Hardware" then st1
  else if hardware_brands_keys.contains v then st1
  else { st1 with state := "request_preview" }

/-- `request_flow_handler.handle_hardware_brand`
(src/services/request_flow_handler.py:238-257): an `Other ...` brand keeps
the state and pushes nothing; otherwise the entry is pushed and the flow
moves to the preview. -/
def handle_hardware_brand (v : String) (st : ConvState) : ConvState :=
  if v.startsWith "Other " then { st with state := "request_hardware_brand" }
  else
    { state := "request_preview",
      navStack := ("request_hardware_brand", v) :: st.navStack }

/-- `request_flow_handler.handle_software_action`
(src/services/request_flow_handler.py:260-278). -/
def handle_software_action (v : String) (st : ConvState) : ConvState :=
  { state := "request_software_type",
    navStack := ("request_software_action", v) :: st.navStack }

/-- `request_flow_handler.handle_software_item`
(src/services/request_flow_handler.py:281-300): `Other` prompts for a name
and stays in `request_software_type`; anything else moves to the preview. -/
def handle_software_item (v : String) (st : ConvState) : ConvState :=
  let st1 : ConvState :=
    { st with navStack := ("request_software_type", v) :: st.navStack }
  if v = "Other" then { st1 with state := "request_software_type" }
  else { st1 with state := "request_preview" }

/-- `request_flow_handler.handle_access_type`
(src/services/request_flow_handler.py:303-346): the entry is pushed first;
`internet`, `shared_folder` and `vpn` set their states (the latter two push
a second entry); an unknown value returns `None` with the state unchanged. -/
def handle_access_type (v : String) (st : ConvState) : ConvState :=
  let st1 : ConvState :=
    { st with navStack := ("request_access_type", v) :: st.navStack }
  if v = "internet" then { st1 with state := "request_internet_access" }
  else if v = "shared_folder" then
    { state := "request_shared_folder_path",
      navStack := ("request_access_folder", v) :: st1.navStack }
  else if v = "vpn" then
    { state := "request_preview",
      navStack := ("request_access_vpn", "vpn") :: st1.navStack }
  else st1

/-- `ChatHandler.handle_action` (src/services/chat_handler.py:81-217)
projected to the session: the updated session, the `go_to_start` flag and
the `create_ticket` flag of the returned response.  Any exception inside a
handler is caught at this boundary (the function never raises); exception
oracles appear where the source can raise after mutating nothing
(`int(...)` parses in `select_issue` and `submit_rating`, the agent call in
`free_text`). -/
def handle_action (a : ChatAction) (st : ConvState) : ConvState × Bool × Bool :=
  match a with
  | .start => (handle_start, false, false)
  | .restart => (handle_start, false, false)
  | .select_ticket_type v => (handle_select_ticket_type v, false, false)
  | .select_smart_category v =>
      ({ state := "awaiting_category", navStack := ("smart_category", v) :: st.navStack },
       false, false)
  | .select_category v =>
      ({ state := "awaiting_type", navStack := ("category", v) :: st.navStack },
       false, false)
  | .select_type v =>
      ({ state := "awaiting_item", navStack := ("type", v) :: st.navStack },
       false, false)
  | .select_item v =>
      ({ state := "awaiting_issue", navStack := ("item", v) :: st.navStack },
       false, false)
  | .select_issue v parses found =>
      if parses && found then
        ({ state := "showing_solution", navStack := ("issue", v) :: st.navStack },
         false, false)
      else (st, false, false)
  | .other_issue =>
      ({ state := "awaiting_free_text", navStack := ("other_issue", "") :: st.navStack },
       false, false)
  | .free_text nonEmpty agent => (handle_free_text nonEmpty agent st, false, false)
  | .solution_resolved => ({ st with state := "end_rating" }, false, false)
  | .solution_not_resolved =>
      ({ st with state := "awaiting_ticket_confirmation" }, false, false)
  | .agent_continue => ({ st with state := "awaiting_free_text" }, false, false)
  | .preview_ticket =>
      ({ st with state := "awaiting_ticket_confirmation" }, false, false)
  | .confirm_ticket => ({ st with state := "ticket_created" }, false, true)
  | .decline_ticket => ({ st with state := "completed" }, false, false)
  | .go_back =>
      let r := handle_go_back st
      (r.1, r.2, false)
  | .end_action => ({ st with state := "completed" }, false, false)
  | .select_request_category v => (handle_request_category v st, false, false)
  | .select_hardware_item v => (handle_hardware_item v st, false, false)
  | .select_hardware_brand v => (handle_hardware_brand v st, false, false)
  | .select_software_action v => (handle_software_action v st, false, false)
  | .select_software_item v => (handle_software_item v st, false, false)
  | .select_access_type v => (handle_access_type v st, false, false)
  | .confirm_internet_access =>
      ({ st with state := "request_preview",
                 navStack := ("request_internet_confirm", "confirm") :: st.navStack },
       false, false)
  | .select_folder_permission v =>
      ({ st with state := "request_preview",
                 navStack := ("request_folder_permission", v) :: st.navStack },
       false, false)
  | .submit_request => ({ st with state := "request_complete" }, false, false)
  | .check_approval => ({ st with state := "manager_approved" }, false, false)
  | .solution_helpful _ => (st, false, false)
  | .submit_rating parses =>
      if parses then ({ st with state := "end_feedback_text" }, false, false)
      else (st, false, false)
  | .skip_rating => ({ st with state := "feedback_complete" }, false, false)
  | .submit_feedback_text => ({ st with state := "feedback_complete" }, false, false)
  | .skip_feedback_text => ({ st with state := "feedback_complete" }, false, false)
  | .unknown _ => (handle_start, false, false)

/-- The free-text allow-list of the `/api/chat` endpoint
(src/app.py:596-599). -/
def request_text_states : List String :=
  ["awaiting_free_text", "request_justification", "request_vpn_reason",
   "request_shared_folder_path", "request_software_type", "end_feedback_text"]

/-- One inbound turn of the `/api/chat` endpoint: the optional action, the
presence of a (truthy) message, the free-text oracles, and whether the
database ticket creation succeeds on the confirm path. -/
structure ChatInput where
  action : Option ChatAction
  hasMessage : Bool
  stripNonEmpty : Bool
  agent : AgentOutcome
  createSucceeds : Bool
deriving DecidableEq

/-- The action-resolution step of the `/api/chat` endpoint
(src/app.py:594-605): a bare message maps to `free_text` only in the
allow-listed states; any turn still lacking an action defaults to `start`. -/
def resolveAction (inp : ChatInput) (st : ConvState) : ChatAction :=
  match inp.action with
  | some a => a
  | none =>
      if inp.hasMessage && request_text_states.contains st.state then
        ChatAction.free_text inp.stripNonEmpty inp.agent
      else ChatAction.start

/-- One full turn of the `/api/chat` endpoint (src/app.py:550-794): resolve
the action, dispatch it, re-dispatch `start` when the handler asked for it,
and on the confirm path create the ticket — on success the endpoint moves
the session to `end_rating` (the `simulate_manager_approval` flag is never
set by any handler response), on failure the session is left as the handler
set it. -/
def chatStep (inp : ChatInput) (st : ConvState) : ConvState :=
  let r := handle_action (resolveAction inp st) st
  let r := if r.2.1 then handle_action ChatAction.start r.1 else r
  if r.2.2 then
    if inp.createSucceeds then { r.1 with state := "end_rating" } else r.1
  else r.1

/-- A sequence of inbound turns applied to a session. -/
def runChat (inps : List ChatInput) (st : ConvState) : ConvState :=
  inps.foldl (fun s i => chatStep i s) st

/-- Every value the code ever assigns to the session's `state` field
(including the initial value), collected from src/services/chat_handler.py,
src/services/request_flow_handler.py, src/services/feedback_handler.py and
the `/api/chat` endpoint in src/app.py. -/
def codeStates : List String :=
  ["initial", "awaiting_ticket_type", "awaiting_smart_category",
   "awaiting_category", "awaiting_type", "awaiting_item", "awaiting_issue",
   "showing_solution", "awaiting_free_text", "awaiting_ticket_confirmation",
   "ticket_created", "completed", "end_rating", "end_feedback_text",
   "feedback_complete", "request_category", "request_hardware_type",
   "request_hardware_brand", "request_software_action",
   "request_software_type", "request_access_type", "request_internet_access",
   "request_shared_folder_path", "request_shared_folder_permission",
   "request_preview", "request_complete", "manager_approved"]

/-- The closed set of states enumerated in §4.1 of the specification, read
generously: the fourteen named states, the request sub-branch states
including every `request_access_type` sub-variant, `request_preview`,
`request_complete` and `manager_approval`. -/
def spec41States : List String :=
  ["initial", "awaiting_ticket_type", "awaiting_smart_category",
   "awaiting_category", "awaiting_type", "awaiting_item", "awaiting_issue",
   "showing_solution", "awaiting_free_text", "awaiting_ticket_confirmation",
   "ticket_created", "end_rating", "end_feedback_text", "completed",
   "request_category", "request_hardware_type", "request_hardware_brand",
   "request_software_action", "request_software_type", "request_access_type",
   "request_internet_access", "request_shared_folder_path",
   "request_shared_folder_permission", "request_vpn_reason",
   "request_justification", "request_preview", "request_complete",
   "manager_approval"]

/-! ## Per-solution feedback

`feedback_handler.handle_solution_helpful`
(src/services/feedback_handler.py:176-196) and
`PostgresDB.save_all_feedback` (src/db/postgres.py:1135-1166). -/

/-- The `conversation_state['solution_feedback']` accumulator: a Python dict
from solution index to feedback tag, kept as an insertion-ordered
association list (Python dicts preserve insertion order; assigning to an
existing key replaces its value in place). -/
def dictSet (m : List (Nat × String)) (k : Nat) (v : String) : List (Nat × String) :=
  if m.any (fun kv => kv.1 == k) then
    m.map (fun kv => if kv.1 == k then (k, v) else kv)
  else m ++ [(k, v)]

/-- Lookup in the accumulator. -/
def dictGet (m : List (Nat × String)) (k : Nat) : Option String :=
  (m.find? (fun kv => kv.1 == k)).map (fun kv => kv.2)

/-- `feedback_handler.handle_solution_helpful` on a well-formed
`"{index}:{tag}"` value, after the split and `int` parse: store the tag
under the index (a malformed value returns `None` or raises, and the
accumulator is untouched either way). -/
def handle_solution_helpful (solution_index : Nat) (feedback_type : String)
    (m : List (Nat × String)) : List (Nat × String) :=
  dictSet m solution_index feedback_type

/-- A row of the `solution_feedback` table as inserted by
`PostgresDB.save_solution_feedback` (append-only INSERT). -/
structure SolutionFeedbackRow where
  session_id : String
  solution_index : Nat
  solution_text : String
  feedback_type : String
deriving DecidableEq

/-- The `solution_text` chosen for an index by `PostgresDB.save_all_feedback`
(src/db/postgres.py:1149): `solutions_shown[index - 1]` when
`index <= len(solutions_shown)` (Python indexing, so index 0 reads the last
element and raises on an empty list — the per-item `except` then skips the
row), `""` otherwise. -/
def solEntry (solutions_shown : List String) (index : Nat) : Option String :=
  if index ≤ solutions_shown.length then
    if index = 0 then solutions_shown.getLast?
    else some (solutions_shown.getD (index - 1) "")
  else some ""

/-- The per-solution rows inserted by `PostgresDB.save_all_feedback`: one
independent row per accumulator entry, in insertion order. -/
def save_all_feedback_rows (session_id : String)
    (solution_feedback : List (Nat × String)) (solutions_shown : List String) :
    List SolutionFeedbackRow :=
  solution_feedback.filterMap (fun kv =>
    (solEntry solutions_shown kv.1).map (fun text =>
      { session_id := session_id, solution_index := kv.1,
        solution_text := text, feedback_type := kv.2 }))

/-! ## Shared helper lemmas -/

/-- Field projections of a created ticket: the assignment step only touches
the assignment fields and the status, so priority, SLA deadline, creation
time and the request data are those of the freshly inserted row. -/
theorem create_ticket_proj (rules : List PriorityRule) (cfg : List SlaConfig)
    (techs : List Technician) (tickets : List TicketRow)
    (id user_id subject description : String) (category : Option String)
    (priorityArg : String) (rand : Fin 5) (nowApp nowDb : Int) (nowIst : Nat)
    (assignRaises : Bool) :
    (create_ticket rules cfg techs tickets id user_id subject description category
        priorityArg rand nowApp nowDb nowIst assignRaises).priority
      = create_ticket_priority rules subject description category priorityArg rand
    ∧ (create_ticket rules cfg techs tickets id user_id subject description category
        priorityArg rand nowApp nowDb nowIst assignRaises).sla_deadline
      = calculate_sla_deadline cfg
          (create_ticket_priority rules subject description category priorityArg rand) nowApp
    ∧ (create_ticket rules cfg techs tickets id user_id subject description category
        priorityArg rand nowApp nowDb nowIst assignRaises).created_at = nowDb
    ∧ (create_ticket rules cfg techs tickets id user_id subject description category
        priorityArg rand nowApp nowDb nowIst assignRaises).id = id
    ∧ (create_ticket rules cfg techs tickets id user_id subject description category
        priorityArg rand nowApp nowDb nowIst assignRaises).subject = subject := by
  unfold create_ticket auto_assign_ticket
  cases h : get_on_shift_technician_round_robin techs tickets nowIst <;>
    cases assignRaises <;> simp [h]

/-- The deadline computed by `calculate_sla_deadline` sits exactly the
configured duration after the clock reading the function itself takes. -/
theorem calculate_sla_deadline_sub (cfg : List SlaConfig) (p : String) (now : Int) :
    calculate_sla_deadline cfg p now - now = sla_duration cfg p := by
  unfold calculate_sla_deadline sla_duration
  cases get_sla_by_priority cfg p <;> ring

/-! ## C1 — SLA deadline vs stored creation time -/

/-- C1 counterexample: with an empty `sla_config` table, an application
clock reading of 0 at SLA computation and a database clock reading of 3600
at insert, the stored deadline minus the stored creation time is 82800
seconds, not the configured 86400-second (24 h) default — the two fields are
based on two different clock readings, so the claimed zero-drift equality
fails. -/
theorem c1_counterexample :
    ¬ ((create_ticket [] [] [] [] "TKT-1" "USR-1" "subj" "desc" none "P3" 0 0 3600
          600 false).sla_deadline
        - (create_ticket [] [] [] [] "TKT-1" "USR-1" "subj" "desc" none "P3" 0 0 3600
          600 false).created_at
      = sla_duration []
          (create_ticket [] [] [] [] "TKT-1" "USR-1" "subj" "desc" none "P3" 0 0 3600
            600 false).priority) := by decide

/-- C1 (amended): the stored SLA deadline equals the clock reading taken
inside `calculate_sla_deadline` plus exactly the configured duration for the
stored priority (with the fixed 24-hour window when the priority is absent
from the SLA table); the stored creation timestamp is the separate database
clock reading taken at insert time, so the deadline-minus-creation-time
difference equals the configured duration only when the two readings
coincide — `now` is not captured once and reused for both fields. -/
theorem c1_sla_deadline_basis (rules : List PriorityRule) (cfg : List SlaConfig)
    (techs : List Technician) (tickets : List TicketRow)
    (id user_id subject description : String) (category : Option String)
    (priorityArg : String) (rand : Fin 5) (nowApp nowDb : Int) (nowIst : Nat)
    (assignRaises : Bool) :
    (create_ticket rules cfg techs tickets id user_id subject description category
        priorityArg rand nowApp nowDb nowIst assignRaises).sla_deadline - nowApp
      = sla_duration cfg
          (create_ticket rules cfg techs tickets id user_id subject description category
            priorityArg rand nowApp nowDb nowIst assignRaises).priority
    ∧ (create_ticket rules cfg techs tickets id user_id subject description category
        priorityArg rand nowApp nowDb nowIst assignRaises).created_at = nowDb := by
  obtain ⟨hp, hs, hc, -, -⟩ := create_ticket_proj rules cfg techs tickets id user_id
    subject description category priorityArg rand nowApp nowDb nowIst assignRaises
  refine ⟨?_, hc⟩
  rw [hp, hs, calculate_sla_deadline_sub]

/-! ## C4 — on-shift predicate -/

/-- The on-shift invariant as the specification states it (§3): T in
`[start, end)` for a non-wrapping shift, `T ≥ start OR T < end` for a
wrapping shift.  This definition follows the specification's words and is
compared with the predicates embedded from the code. -/
def onShiftSpec (s e now : Nat) : Prop :=
  (s < e ∧ s ≤ now ∧ now < e) ∨ (s > e ∧ (now ≥ s ∨ now < e))

instance (s e now : Nat) : Decidable (onShiftSpec s e now) := by
  unfold onShiftSpec
  infer_instance

/-- C4 counterexample: at 17:00 sharp (1020 min) a technician with shift
(09:00, 17:00) is off-shift under the claimed predicate (and under the
round-robin query), yet `get_active_technician_count`'s inclusive BETWEEN
test counts them as on shift — not every place in the code agrees with the
claimed predicate. -/
theorem c4_counterexample :
    shiftCoversCount 540 1020 1020 = true ∧ shiftCoversRR 540 1020 1020 = false
    ∧ ¬ onShiftSpec 540 1020 1020 := by decide

/-- C4 (amended): the round-robin selection's shift test agrees with the
claimed wrap-aware half-open predicate everywhere, and the (19:00, 04:00)
examples behave as claimed (on-shift at 23:30 and 02:00, off at 12:00); but
`get_active_technician_count` uses inclusive bounds and agrees with the
round-robin test only away from the boundary `T = shift_end` — the two
places in the code do not evaluate the same predicate. -/
theorem c4_shift_predicate :
    (∀ s e now : Nat, shiftCoversRR s e now = true ↔ onShiftSpec s e now)
    ∧ (shiftCoversRR 1140 240 1410 = true ∧ shiftCoversRR 1140 240 120 = true
       ∧ shiftCoversRR 1140 240 720 = false)
    ∧ (∀ s e now : Nat, now ≠ e → shiftCoversCount s e now = shiftCoversRR s e now) := by
  refine ⟨?_, by decide, ?_⟩
  · intro s e now
    simp only [shiftCoversRR, onShiftSpec, Bool.or_eq_true, Bool.and_eq_true,
      decide_eq_true_eq]
    omega
  · intro s e now hne
    have h2 : (shiftCoversCount s e now = true) ↔ (shiftCoversRR s e now = true) := by
      unfold shiftCoversCount shiftCoversRR
      split <;> simp <;> omega
    cases hc : shiftCoversCount s e now <;> cases hr : shiftCoversRR s e now <;>
      simp_all

/-- Witness for C4 at a concrete boundary-free input. -/
theorem c4_shift_predicate_witness :
    shiftCoversCount 1140 240 1410 = shiftCoversRR 1140 240 1410 :=
  c4_shift_predicate.2.2 1140 240 1410 (by decide)

/-! ## C7 — unknown actions -/

/-- C7 counterexample: handling an action string outside the vocabulary on a
fresh session leaves the session in `awaiting_ticket_type` (the start
handler's state), not in the claimed safe default `initial`. -/
theorem c7_counterexample :
    (chatStep ⟨some (ChatAction.unknown "not_a_known_action"), false, false,
        AgentOutcome.solution, true⟩ create_initial_state).state
      = "awaiting_ticket_type"
    ∧ (chatStep ⟨some (ChatAction.unknown "not_a_known_action"), false, false,
        AgentOutcome.solution, true⟩ create_initial_state).state ≠ "initial" := by
  decide

/-- C7 (amended): an action string outside the dispatcher's vocabulary never
raises — every exception inside `handle_action` is caught at its boundary,
and the unknown-action branch only runs the start handler — and routes the
session through `_handle_start`, leaving it in `awaiting_ticket_type` with a
cleared navigation stack (the start state, not the literal `initial`
state). -/
theorem c7_unknown_action_routing (name : String) (st : ConvState) :
    handle_action (ChatAction.unknown name) st
      = ({ state := "awaiting_ticket_type", navStack := [] }, false, false) := rfl

/-! ## C6 — textual input outside the free-text allow-list -/

/-- C6 counterexample: a session in `showing_solution` (outside the
allow-list) that receives a bare textual message is not left unchanged — the
endpoint defaults the missing action to `start`, which resets the session to
`awaiting_ticket_type` and clears the navigation stack. -/
theorem c6_counterexample :
    (chatStep ⟨none, true, true, AgentOutcome.solution, true⟩
        ⟨"showing_solution", [("ticket_type", "Incident")]⟩).state
      ≠ "showing_solution" := by decide

/-- C6 (amended): outside the explicit free-text allow-list, a bare inbound
textual message is not treated as an idempotent re-prompt; the endpoint
defaults the missing action to `start`, resetting the session to
`awaiting_ticket_type` with an empty navigation stack.  Inside the
allow-list the message is routed as the `free_text` action. -/
theorem c6_bare_message_routing :
    (∀ (st : ConvState) (inp : ChatInput), inp.action = none →
        inp.hasMessage = true → st.state ∉ request_text_states →
        chatStep inp st = { state := "awaiting_ticket_type", navStack := [] })
    ∧ (∀ (st : ConvState) (inp : ChatInput), inp.action = none →
        inp.hasMessage = true → st.state ∈ request_text_states →
        chatStep inp st
          = chatStep { inp with
              action := some (ChatAction.free_text inp.stripNonEmpty inp.agent) } st) := by
  constructor
  · intro st inp ha hm hnot
    simp [chatStep, resolveAction, ha, hm, hnot, handle_action, handle_start,
      create_initial_state]
  · intro st inp ha hm hmem
    simp [chatStep, resolveAction, ha, hm, hmem]

/-- Witness for C6: a session in `completed` receiving a bare message is
reset to the start state. -/
theorem c6_bare_message_routing_witness :
    chatStep ⟨none, true, true, AgentOutcome.solution, true⟩ ⟨"completed", []⟩
      = { state := "awaiting_ticket_type", navStack := [] } :=
  c6_bare_message_routing.1 ⟨"completed", []⟩
    ⟨none, true, true, AgentOutcome.solution, true⟩ rfl rfl (by decide)

/-! ## C9 — per-solution feedback independence -/

/-- `List.find?` over a key-preserving single-key update: entries keep their
keys, so lookups for a different key are unaffected. -/
theorem find?_dictSet_map (i j : Nat) (v : String) (h : i ≠ j) :
    ∀ m : List (Nat × String),
      List.find? (fun kv => kv.1 == i)
          (m.map (fun kv => if kv.1 == j then (j, v) else kv))
        = List.find? (fun kv => kv.1 == i) m := by
  intro m
  rw [List.find?_map]
  have hpf : ((fun kv => kv.1 == i) ∘ fun kv : Nat × String =>
      if kv.1 == j then (j, v) else kv) = fun kv => kv.1 == i := by
    funext kv
    by_cases hkj : kv.1 = j <;> simp [hkj]
  rw [hpf]
  cases hf : List.find? (fun kv => kv.1 == i) m with
  | none => rfl
  | some a =>
      have hai : a.1 = i := by simpa using List.find?_some hf
      have haj : ¬ a.1 = j := by rw [hai]; exact h
      simp [haj]

/-- `List.find?` over an appended fresh entry with a different key. -/
theorem find?_append_ne (i j : Nat) (v : String) (h : i ≠ j) :
    ∀ m : List (Nat × String),
      List.find? (fun kv => kv.1 == i) (m ++ [(j, v)])
        = List.find? (fun kv => kv.1 == i) m := by
  intro m
  have hji : (j == i) = false := by simpa using Ne.symm h
  induction m with
  | nil => simp [List.find?, hji]
  | cons kv tl ih =>
      by_cases hki : kv.1 = i <;> simp [List.find?, hki, ih]

/-- A submission for one solution index never changes the accumulator entry
of a different index. -/
theorem dictGet_dictSet_ne (m : List (Nat × String)) (i j : Nat) (v : String)
    (h : i ≠ j) : dictGet (dictSet m j v) i = dictGet m i := by
  unfold dictGet dictSet
  split
  · rw [find?_dictSet_map i j v h]
  · rw [find?_append_ne i j v h]

/-- C9: per-solution feedback entries are independent across indices —
submitting feedback for index `j` never changes the recorded feedback for a
different index `i`; in particular, sending `tried` then `helpful` for index
1 followed by `tried` then `not_helpful` for index 2 leaves the accumulator
with the two independent entries `(1, helpful)` and `(2, not_helpful)`, and
`save_all_feedback` turns them into two independent inserted rows, neither
overwriting the other. -/
theorem c9_feedback_independence :
    (∀ (m : List (Nat × String)) (i j : Nat) (v : String), i ≠ j →
        dictGet (handle_solution_helpful j v m) i = dictGet m i)
    ∧ (handle_solution_helpful 2 "not_helpful" (handle_solution_helpful 2 "tried"
        (handle_solution_helpful 1 "helpful" (handle_solution_helpful 1 "tried" [])))
        = [(1, "helpful"), (2, "not_helpful")])
    ∧ (save_all_feedback_rows "S" [(1, "helpful"), (2, "not_helpful")] ["s1", "s2"]
        = [⟨"S", 1, "s1", "helpful"⟩, ⟨"S", 2, "s2", "not_helpful"⟩]) := by
  refine ⟨?_, by decide, by decide⟩
  intro m i j v h
  exact dictGet_dictSet_ne m i j v h

/-- Witness for C9 at concrete indices 1 and 2. -/
theorem c9_feedback_independence_witness :
    dictGet (handle_solution_helpful 2 "not_helpful" [(1, "helpful")]) 1
      = dictGet [(1, "helpful")] 1 :=
  c9_feedback_independence.1 [(1, "helpful")] 1 2 "not_helpful" (by decide)

/-! ## C3 — round-robin selection -/

theorem rrBefore_irrefl (a : Option Nat × Nat) : rrBefore a a = false := by
  rcases a with ⟨_ | x, i⟩ <;> simp [rrBefore]

theorem rrBefore_trans {a b c : Option Nat × Nat} (h1 : rrBefore a b = true)
    (h2 : rrBefore b c = true) : rrBefore a c = true := by
  rcases a with ⟨_ | xa, ia⟩ <;> rcases b with ⟨_ | xb, ib⟩ <;>
    rcases c with ⟨_ | xc, ic⟩ <;> revert h1 h2 <;> simp [rrBefore] <;> omega

theorem rrBefore_neg_trans {a b c : Option Nat × Nat} (h1 : rrBefore a b = false)
    (h2 : rrBefore b c = false) : rrBefore a c = false := by
  rcases a with ⟨_ | xa, ia⟩ <;> rcases b with ⟨_ | xb, ib⟩ <;>
    rcases c with ⟨_ | xc, ic⟩ <;> revert h1 h2 <;> simp [rrBefore] <;> omega

/-- The fold that realizes `ORDER BY ... LIMIT 1` returns an element of the
candidate list (or the seed) that no candidate strictly precedes. -/
theorem rrPick_spec (tickets : List TicketRow) :
    ∀ (cands : List Technician) (acc : Option Technician) (m : Technician),
      rrPick tickets cands acc = some m →
      (acc = some m ∨ m ∈ cands)
      ∧ (∀ c ∈ cands, rrBefore (rrKey tickets c) (rrKey tickets m) = false)
      ∧ (∀ b, acc = some b → rrBefore (rrKey tickets b) (rrKey tickets m) = false) := by
  intro cands
  induction cands with
  | nil =>
      intro acc m hm
      have hm' : acc = some m := hm
      refine ⟨Or.inl hm', ?_, ?_⟩
      · intro c hc
        exact absurd hc (List.not_mem_nil c)
      · intro b hb
        have : b = m := by rw [hb] at hm'; exact Option.some_injective _ hm'
        rw [this]
        exact rrBefore_irrefl _
  | cons x xs ih =>
      intro acc m hm
      have hm' : rrPick tickets xs (rrStep tickets acc x) = some m := hm
      obtain ⟨h1, h2, h3⟩ := ih (rrStep tickets acc x) m hm'
      cases acc with
      | none =>
          have hxm : rrBefore (rrKey tickets x) (rrKey tickets m) = false := h3 x rfl
          refine ⟨?_, ?_, ?_⟩
          · rcases h1 with h | h
            · have : x = m := Option.some_injective _ h
              exact Or.inr (this ▸ List.mem_cons_self x xs)
            · exact Or.inr (List.mem_cons_of_mem _ h)
          · intro c hc
            rcases List.mem_cons.mp hc with rfl | hc
            · exact hxm
            · exact h2 c hc
          · intro b hb
            exact absurd hb (by simp)
      | some b =>
          cases hbx : rrBefore (rrKey tickets x) (rrKey tickets b) with
          | true =>
              have hsx : rrStep tickets (some b) x = some x := by simp [rrStep, hbx]
              have hxm := h3 x hsx
              refine ⟨?_, ?_, ?_⟩
              · rcases h1 with h | h
                · rw [hsx] at h
                  have : x = m := Option.some_injective _ h
                  exact Or.inr (this ▸ List.mem_cons_self x xs)
                · exact Or.inr (List.mem_cons_of_mem _ h)
              · intro c hc
                rcases List.mem_cons.mp hc with rfl | hc
                · exact hxm
                · exact h2 c hc
              · intro b' hb'
                have hbb : b = b' := Option.some_injective _ hb'
                rw [← hbb]
                cases hbm : rrBefore (rrKey tickets b) (rrKey tickets m) with
                | false => rfl
                | true => exact absurd (rrBefore_trans hbx hbm) (by simp [hxm])
          | false =>
              have hsb : rrStep tickets (some b) x = some b := by simp [rrStep, hbx]
              have hbm := h3 b hsb
              refine ⟨?_, ?_, ?_⟩
              · rcases h1 with h | h
                · rw [hsb] at h
                  exact Or.inl h
                · exact Or.inr (List.mem_cons_of_mem _ h)
              · intro c hc
                rcases List.mem_cons.mp hc with rfl | hc
                · exact rrBefore_neg_trans hbx hbm
                · exact h2 c hc
              · intro b' hb'
                have hbb : b = b' := Option.some_injective _ hb'
                rw [← hbb]
                exact hbm

/-- The fold returns a row whenever the candidate list is non-empty. -/
theorem rrPick_isSome (tickets : List TicketRow) :
    ∀ (cands : List Technician) (acc : Option Technician),
      cands ≠ [] ∨ acc.isSome = true → (rrPick tickets cands acc).isSome = true := by
  intro cands
  induction cands with
  | nil =>
      intro acc h
      rcases h with h | h
      · exact absurd rfl h
      · simpa [rrPick] using h
  | cons x xs ih =>
      intro acc h
      have hs : (rrStep tickets acc x).isSome = true := by
        cases acc with
        | none => rfl
        | some b =>
            simp only [rrStep]
            split <;> rfl
      exact ih (rrStep tickets acc x) (Or.inr hs)

/-- C3: the round-robin selection returns, among active on-shift
technicians, a candidate that no other candidate strictly precedes under
`ORDER BY last_assigned_at ASC NULLS FIRST, id ASC` — i.e. the technician
whose most recent assignment timestamp is oldest, never-assigned
technicians first, ties broken by the smaller identity — and it returns a
technician whenever a candidate exists.  In particular, with on-shift
technicians A (id 1, last assigned three hours before the 10:00 current
time) and B (id 2, never assigned), it returns B; with both never assigned
it returns the one with the smaller identity. -/
theorem c3_round_robin_selection :
    (∀ (techs : List Technician) (tickets : List TicketRow) (nowIst : Nat)
        (t : Technician),
        get_on_shift_technician_round_robin techs tickets nowIst = some t →
        t ∈ rrCandidates techs nowIst
        ∧ ∀ c ∈ rrCandidates techs nowIst,
            rrBefore (rrKey tickets c) (rrKey tickets t) = false)
    ∧ (∀ (techs : List Technician) (tickets : List TicketRow) (nowIst : Nat),
        rrCandidates techs nowIst ≠ [] →
        (get_on_shift_technician_round_robin techs tickets nowIst).isSome = true)
    ∧ get_on_shift_technician_round_robin
        [⟨1, "A", true, some 540, some 1080⟩, ⟨2, "B", true, some 540, some 1080⟩]
        [⟨some 1, 420⟩] 600 = some ⟨2, "B", true, some 540, some 1080⟩
    ∧ get_on_shift_technician_round_robin
        [⟨2, "B", true, some 540, some 1080⟩, ⟨1, "A", true, some 540, some 1080⟩]
        [] 600 = some ⟨1, "A", true, some 540, some 1080⟩ := by
  refine ⟨?_, ?_, by decide, by decide⟩
  · intro techs tickets nowIst t ht
    obtain ⟨h1, h2, -⟩ := rrPick_spec tickets (rrCandidates techs nowIst) none t ht
    refine ⟨?_, h2⟩
    rcases h1 with h | h
    · exact absurd h (by simp)
    · exact h
  · intro techs tickets nowIst h
    exact rrPick_isSome tickets (rrCandidates techs nowIst) none (Or.inl h)

/-- Witness for C3: in the A/B scenario the returned technician B is a
candidate and no candidate strictly precedes it. -/
theorem c3_round_robin_selection_witness :
    (⟨2, "B", true, some 540, some 1080⟩ : Technician)
        ∈ rrCandidates
            [⟨1, "A", true, some 540, some 1080⟩, ⟨2, "B", true, some 540, some 1080⟩] 600
    ∧ ∀ c ∈ rrCandidates
            [⟨1, "A", true, some 540, some 1080⟩, ⟨2, "B", true, some 540, some 1080⟩] 600,
        rrBefore (rrKey [⟨some 1, 420⟩] c)
          (rrKey [⟨some 1, 420⟩] ⟨2, "B", true, some 540, some 1080⟩) = false :=
  c3_round_robin_selection.1
    [⟨1, "A", true, some 540, some 1080⟩, ⟨2, "B", true, some 540, some 1080⟩]
    [⟨some 1, 420⟩] 600 ⟨2, "B", true, some 540, some 1080⟩ (by decide)

/-! ## C8 — assignment is best-effort -/

/-- C8: when no technician is on shift (the round-robin selection returns
none), and likewise when the auto-assignment step raises (the caught
exception branch), `create_ticket` still returns the created ticket: the
assigned-technician fields are null, the status is the freshly created
`Open`, and the requested id and subject are stored — assignment failure is
never surfaced as a ticket-creation error. -/
theorem c8_unassigned_creation :
    (∀ (rules : List PriorityRule) (cfg : List SlaConfig)
        (techs : List Technician) (tickets : List TicketRow)
        (id user_id subject description : String) (category : Option String)
        (priorityArg : String) (rand : Fin 5) (nowApp nowDb : Int) (nowIst : Nat),
        get_on_shift_technician_round_robin techs tickets nowIst = none →
        (create_ticket rules cfg techs tickets id user_id subject description
            category priorityArg rand nowApp nowDb nowIst false).assigned_to_id = none
        ∧ (create_ticket rules cfg techs tickets id user_id subject description
            category priorityArg rand nowApp nowDb nowIst false).assigned_to = none
        ∧ (create_ticket rules cfg techs tickets id user_id subject description
            category priorityArg rand nowApp nowDb nowIst false).status = "Open"
        ∧ (create_ticket rules cfg techs tickets id user_id subject description
            category priorityArg rand nowApp nowDb nowIst false).id = id
        ∧ (create_ticket rules cfg techs tickets id user_id subject description
            category priorityArg rand nowApp nowDb nowIst false).subject = subject)
    ∧ (∀ (rules : List PriorityRule) (cfg : List SlaConfig)
        (techs : List Technician) (tickets : List TicketRow)
        (id user_id subject description : String) (category : Option String)
        (priorityArg : String) (rand : Fin 5) (nowApp nowDb : Int) (nowIst : Nat),
        (create_ticket rules cfg techs tickets id user_id subject description
            category priorityArg rand nowApp nowDb nowIst true).assigned_to_id = none
        ∧ (create_ticket rules cfg techs tickets id user_id subject description
            category priorityArg rand nowApp nowDb nowIst true).assigned_to = none
        ∧ (create_ticket rules cfg techs tickets id user_id subject description
            category priorityArg rand nowApp nowDb nowIst true).status = "Open"
        ∧ (create_ticket rules cfg techs tickets id user_id subject description
            category priorityArg rand nowApp nowDb nowIst true).id = id
        ∧ (create_ticket rules cfg techs tickets id user_id subject description
            category priorityArg rand nowApp nowDb nowIst true).subject = subject) := by
  constructor
  · intro rules cfg techs tickets id user_id subject description category
      priorityArg rand nowApp nowDb nowIst h
    unfold create_ticket auto_assign_ticket
    rw [h]
    simp
  · intro rules cfg techs tickets id user_id subject description category
      priorityArg rand nowApp nowDb nowIst
    unfold create_ticket
    simp

/-- Witness for C8: with no technicians at all, the created ticket is
unassigned but otherwise intact. -/
theorem c8_unassigned_creation_witness :
    (create_ticket [] [] [] [] "TKT-1" "USR-1" "s" "d" none "P3" 0 0 0 600
        false).assigned_to_id = none
    ∧ (create_ticket [] [] [] [] "TKT-1" "USR-1" "s" "d" none "P3" 0 0 0 600
        false).assigned_to = none
    ∧ (create_ticket [] [] [] [] "TKT-1" "USR-1" "s" "d" none "P3" 0 0 0 600
        false).status = "Open"
    ∧ (create_ticket [] [] [] [] "TKT-1" "USR-1" "s" "d" none "P3" 0 0 0 600
        false).id = "TKT-1"
    ∧ (create_ticket [] [] [] [] "TKT-1" "USR-1" "s" "d" none "P3" 0 0 0 600
        false).subject = "s" :=
  c8_unassigned_creation.1 [] [] [] [] "TKT-1" "USR-1" "s" "d" none "P3" 0 0 0 600
    (by decide)

/-! ## C2 / C10 — priority classifier analysis -/

/-- A database rule fires on a text and category: its keyword occurs in the
text and its category scope, when truthy, equals the supplied category
(exactly the conditions of the rule loop). -/
def ruleMatches (text : String) (category : Option String) (r : PriorityRule) : Bool :=
  strContains text (lowerStr r.keyword) && !(optTruthy r.category && (r.category != category))

theorem ruleStep_eq (text : String) (category : Option String)
    (acc : Nat × Option String) (r : PriorityRule) :
    ruleStep text category acc r =
      if ruleMatches text category r then
        if priority_order r.priority > acc.1 then
          (priority_order r.priority, some r.priority)
        else acc
      else acc := by
  unfold ruleStep ruleMatches
  by_cases h1 : strContains text (lowerStr r.keyword) = true
  · by_cases h2 : (optTruthy r.category && (r.category != category)) = true
    · simp [h1, h2]
    · simp [h1, h2]
  · simp [h1]

/-- Invariant of the rule-scan accumulator: either nothing matched yet, or
`max_priority` is a priority whose order is exactly `max_order ≥ 1`. -/
def scanInv (acc : Nat × Option String) : Prop :=
  (acc.2 = none ∧ acc.1 = 0) ∨
  (∃ p, acc.2 = some p ∧ priority_order p = acc.1 ∧ 1 ≤ acc.1)

theorem scanInv_init : scanInv (0, none) := Or.inl ⟨rfl, rfl⟩

theorem priority_order_le (p : String) : priority_order p ≤ 3 := by
  unfold priority_order
  split_ifs <;> omega

theorem priority_order_eq3 {p : String} (h : priority_order p = 3) : p = "P2" := by
  unfold priority_order at h
  split_ifs at h <;> simp_all

theorem priority_order_pos {p : String} (h : 1 ≤ priority_order p) :
    p = "P2" ∨ p = "P3" ∨ p = "P4" := by
  unfold priority_order at h
  split_ifs at h <;> simp_all

theorem scanInv_step (text : String) (category : Option String)
    (acc : Nat × Option String) (r : PriorityRule) (h : scanInv acc) :
    scanInv (ruleStep text category acc r) := by
  rw [ruleStep_eq]
  split_ifs with h1 h2
  · exact Or.inr ⟨r.priority, rfl, rfl, by omega⟩
  · exact h
  · exact h

theorem scan_foldl_inv (text : String) (category : Option String) :
    ∀ (rules : List PriorityRule) (acc : Nat × Option String), scanInv acc →
      scanInv (rules.foldl (ruleStep text category) acc) := by
  intro rules
  induction rules with
  | nil => intro acc h; exact h
  | cons r tl ih =>
      intro acc h
      exact ih _ (scanInv_step text category acc r h)

theorem scan_foldl_matched (text : String) (category : Option String) :
    ∀ (rules : List PriorityRule) (acc : Nat × Option String) (p : String),
      (rules.foldl (ruleStep text category) acc).2 = some p →
      acc.2 = some p
      ∨ ∃ r ∈ rules, ruleMatches text category r = true ∧ r.priority = p := by
  intro rules
  induction rules with
  | nil =>
      intro acc p h
      exact Or.inl h
  | cons r tl ih =>
      intro acc p h
      rcases ih (ruleStep text category acc r) p h with hstep | ⟨r', hr', hm', hp'⟩
      · rw [ruleStep_eq] at hstep
        split_ifs at hstep with h1 h2
        · refine Or.inr ⟨r, List.mem_cons_self r tl, h1, ?_⟩
          exact Option.some_injective _ hstep.symm |>.symm
        · exact Or.inl hstep
        · exact Or.inl hstep
      · exact Or.inr ⟨r', List.mem_cons_of_mem _ hr', hm', hp'⟩

theorem ruleStep_fst_mono (text : String) (category : Option String)
    (acc : Nat × Option String) (r : PriorityRule) :
    acc.1 ≤ (ruleStep text category acc r).1 := by
  rw [ruleStep_eq]
  split_ifs with h1 h2
  · exact Nat.le_of_lt h2
  · exact le_rfl
  · exact le_rfl

theorem scan_foldl_fst_mono (text : String) (category : Option String) :
    ∀ (rules : List PriorityRule) (acc : Nat × Option String),
      acc.1 ≤ (rules.foldl (ruleStep text category) acc).1 := by
  intro rules
  induction rules with
  | nil => intro acc; exact le_rfl
  | cons r tl ih =>
      intro acc
      exact le_trans (ruleStep_fst_mono text category acc r) (ih _)

theorem scan_foldl_lb (text : String) (category : Option String) :
    ∀ (rules : List PriorityRule) (acc : Nat × Option String) (r : PriorityRule),
      r ∈ rules → ruleMatches text category r = true →
      priority_order r.priority ≤ (rules.foldl (ruleStep text category) acc).1 := by
  intro rules
  induction rules with
  | nil =>
      intro acc r hr
      exact absurd hr (List.not_mem_nil r)
  | cons x tl ih =>
      intro acc r hr hm
      rcases List.mem_cons.mp hr with rfl | hr'
      · refine le_trans ?_ (scan_foldl_fst_mono text category tl (ruleStep text category acc r))
        rw [ruleStep_eq]
        simp only [hm, if_true]
        split_ifs with h2
        · exact le_rfl
        · omega
      · exact ih _ r hr' hm

/-- The fallback draw list never contains the top tier. -/
theorem randFallback_ne_P2 :
    ∀ i : Fin randFallbackChoices.length, randFallbackChoices.get i ≠ "P2" := by
  decide

/-- The fallback draw is always P3 or P4. -/
theorem randFallback_mem :
    ∀ i : Fin randFallbackChoices.length,
      randFallbackChoices.get i ∈ (["P2", "P3", "P4"] : List String) := by
  decide

theorem smart_category_pos {c cp : String}
    (h : smart_category_priorities c = some cp) : 1 ≤ priority_order cp := by
  unfold smart_category_priorities at h
  split_ifs at h <;> simp_all <;> subst h <;> decide

theorem smart_category_eq_P2 {c : String}
    (h : smart_category_priorities c = some "P2") :
    c = "Network Connection Issues" := by
  unfold smart_category_priorities at h
  split_ifs at h <;> simp_all

theorem mergeCategory_inv (category : Option String) (acc : Nat × Option String)
    (h : scanInv acc) : scanInv (mergeCategory category acc) := by
  rcases category with _ | c
  · exact h
  · simp only [mergeCategory]
    by_cases hc : (c != "") = true
    · rw [if_pos hc]
      cases hscp : smart_category_priorities c with
      | none => exact h
      | some cp =>
          show scanInv (if priority_order cp > acc.1 then (priority_order cp, some cp) else acc)
          split_ifs with hgt
          · exact Or.inr ⟨cp, rfl, rfl, smart_category_pos hscp⟩
          · exact h
    · rw [if_neg hc]
      exact h

theorem mergeCategory_some (category : Option String) (acc : Nat × Option String)
    (p : String) (h : (mergeCategory category acc).2 = some p) :
    acc.2 = some p
    ∨ ∃ c, category = some c ∧ smart_category_priorities c = some p := by
  rcases category with _ | c
  · exact Or.inl h
  · simp only [mergeCategory] at h
    by_cases hc : (c != "") = true
    · rw [if_pos hc] at h
      cases hscp : smart_category_priorities c with
      | none =>
          rw [hscp] at h
          exact Or.inl h
      | some cp =>
          rw [hscp] at h
          have h' : (if priority_order cp > acc.1 then (priority_order cp, some cp)
              else acc).2 = some p := h
          split_ifs at h' with hgt
          · refine Or.inr ⟨c, rfl, ?_⟩
            have : cp = p := Option.some_injective _ h'
            rw [hscp, this]
          · exact Or.inl h'
    · rw [if_neg hc] at h
      exact Or.inl h

theorem dpTail_mem (text : String) (category : Option String) (rand : Fin 5)
    (acc2 : Nat × Option String) (hinv : scanInv acc2) :
    dpTail text category rand acc2 ∈ (["P2", "P3", "P4"] : List String) := by
  unfold dpTail
  split_ifs with h1 h2 h3 h4
  · decide
  · decide
  · rcases hinv with ⟨hn, -⟩ | ⟨p, hp, hord, hpos⟩
    · rw [hn] at h3
      simp [optTruthy] at h3
    · rw [hp]
      simp only [Option.getD_some]
      have hppos : 1 ≤ priority_order p := by omega
      rcases priority_order_pos hppos with rfl | rfl | rfl <;> decide
  · exact randFallback_mem _
  · decide

theorem dpTail_eq_P2 (text : String) (category : Option String) (rand : Fin 5)
    (acc2 : Nat × Option String) (hinv : scanInv acc2)
    (h : dpTail text category rand acc2 = "P2") :
    acc2.2 = some "P2" ∨ ∃ k ∈ p2_keywords, strContains text k = true := by
  unfold dpTail at h
  split_ifs at h with h1 h2 h3 h4
  · right
    have ha := ((Bool.and_eq_true _ _).mp h1).1
    simpa using List.any_eq_true.mp ha
  · exact absurd h (by decide)
  · left
    rcases hinv with ⟨hn, -⟩ | ⟨p, hp, -, -⟩
    · rw [hn] at h3
      simp [optTruthy] at h3
    · rw [hp] at h ⊢
      simp only [Option.getD_some] at h
      rw [h]
  · exact absurd h (randFallback_ne_P2 _)
  · exact absurd h (by decide)

/-- A matching P2-tier database rule forces the immediate-return branch:
`determine_priority` returns P2. -/
theorem determine_priority_p2_rule (rules : List PriorityRule)
    (s d : String) (cat : Option String) (rand : Fin 5) (r : PriorityRule)
    (hr : r ∈ rules)
    (hm : ruleMatches (lowerStr (s ++ " " ++ d)) cat r = true)
    (hp : r.priority = "P2") :
    determine_priority rules s d cat rand = "P2" := by
  have hlb := scan_foldl_lb (lowerStr (s ++ " " ++ d)) cat rules (0, none) r hr hm
  rw [hp] at hlb
  have h3 : 3 ≤ (rules.foldl (ruleStep (lowerStr (s ++ " " ++ d)) cat) (0, none)).1 := by
    simpa [priority_order] using hlb
  have hinv := scan_foldl_inv (lowerStr (s ++ " " ++ d)) cat rules (0, none) scanInv_init
  rcases hinv with ⟨-, h0⟩ | ⟨p, hsome, hord, -⟩
  · omega
  · have hple := priority_order_le p
    have hfst : (rules.foldl (ruleStep (lowerStr (s ++ " " ++ d)) cat) (0, none)).1 = 3 := by
      omega
    have hp2 : p = "P2" := priority_order_eq3 (by omega)
    subst hp2
    simp only [determine_priority]
    rw [hsome, hfst]
    simp [optTruthy]

/-- `determine_priority` is total over the three priority tiers. -/
theorem determine_priority_mem (rules : List PriorityRule) (s d : String)
    (cat : Option String) (rand : Fin 5) :
    determine_priority rules s d cat rand ∈ (["P2", "P3", "P4"] : List String) := by
  have hinv := scan_foldl_inv (lowerStr (s ++ " " ++ d)) cat rules (0, none) scanInv_init
  simp only [determine_priority]
  split_ifs with h1
  · rcases hinv with ⟨hn, -⟩ | ⟨p, hp, hord, hpos⟩
    · rw [hn] at h1
      simp [optTruthy] at h1
    · rw [hp]
      simp only [Option.getD_some]
      have hppos : 1 ≤ priority_order p := by omega
      rcases priority_order_pos hppos with rfl | rfl | rfl <;> decide
  · exact dpTail_mem _ _ _ _ (mergeCategory_inv cat _ hinv)

/-- `determine_priority` returns P2 only on an explicit signal: a matching
P2 rule, an extended P2 keyword in the text, or the one category whose
static default is P2. -/
theorem determine_priority_P2_signals (rules : List PriorityRule) (s d : String)
    (cat : Option String) (rand : Fin 5)
    (h : determine_priority rules s d cat rand = "P2") :
    (∃ r ∈ rules, ruleMatches (lowerStr (s ++ " " ++ d)) cat r = true
        ∧ r.priority = "P2")
    ∨ (∃ k ∈ p2_keywords, strContains (lowerStr (s ++ " " ++ d)) k = true)
    ∨ cat = some "Network Connection Issues" := by
  have hinv := scan_foldl_inv (lowerStr (s ++ " " ++ d)) cat rules (0, none) scanInv_init
  simp only [determine_priority] at h
  split_ifs at h with h1
  · rcases hinv with ⟨hn, -⟩ | ⟨p, hp, -, -⟩
    · rw [hn] at h1
      simp [optTruthy] at h1
    · rw [hp] at h
      simp only [Option.getD_some] at h
      subst h
      rcases scan_foldl_matched (lowerStr (s ++ " " ++ d)) cat rules (0, none) _ hp
        with h' | ⟨r, hr, hmk, hpr⟩
      · exact absurd h' (by simp)
      · exact Or.inl ⟨r, hr, hmk, hpr⟩
  · rcases dpTail_eq_P2 (lowerStr (s ++ " " ++ d)) cat rand _
      (mergeCategory_inv cat _ hinv) h with hm | hk
    · rcases mergeCategory_some cat _ "P2" hm with ha | ⟨c, hcat, hscp⟩
      · rcases scan_foldl_matched (lowerStr (s ++ " " ++ d)) cat rules (0, none) _ ha
          with h' | ⟨r, hr, hmk, hpr⟩
        · exact absurd h' (by simp)
        · exact Or.inl ⟨r, hr, hmk, hpr⟩
      · exact Or.inr (Or.inr (by rw [hcat, smart_category_eq_P2 hscp]))
    · exact Or.inr (Or.inl hk)

/-- C2 counterexample: the text matches the database keyword rule
("printer", unscoped, P3), yet with category "Network Connection Issues"
the classifier returns the category default P2, not the matched rule's P3 —
a keyword match does NOT always outrank the static category defaults; the
maximum severity wins. -/
theorem c2_counterexample :
    ruleMatches (lowerStr ("Printer broken" ++ " " ++ "tray"))
        (some "Network Connection Issues") ⟨"printer", none, "P3"⟩ = true
    ∧ determine_priority [⟨"printer", none, "P3"⟩] "Printer broken" "tray"
        (some "Network Connection Issues") 0 = "P2" := by
  constructor
  · decide
  · decide

/-- C2 (amended): a database keyword rule at the P2 tier whose keyword
occurs in the text and whose category scope (if truthy) equals the supplied
category is returned immediately; the top tier P2 is reachable only via
explicit signals — a matching P2 rule, an extended P2 keyword, or the one
category whose static default is P2 ("Network Connection Issues") — and the
pseudo-random fallback draw can never produce P2.  (Keyword matches below
the P2 tier do not always outrank the category defaults: the maximum
severity wins, see the counterexample.) -/
theorem c2_priority_precedence :
    (∀ (rules : List PriorityRule) (subject description : String)
        (category : Option String) (rand : Fin 5) (r : PriorityRule),
        r ∈ rules →
        ruleMatches (lowerStr (subject ++ " " ++ description)) category r = true →
        r.priority = "P2" →
        determine_priority rules subject description category rand = "P2")
    ∧ (∀ (rules : List PriorityRule) (subject description : String)
        (category : Option String) (rand : Fin 5),
        determine_priority rules subject description category rand = "P2" →
        (∃ r ∈ rules,
            ruleMatches (lowerStr (subject ++ " " ++ description)) category r = true
            ∧ r.priority = "P2")
        ∨ (∃ k ∈ p2_keywords,
            strContains (lowerStr (subject ++ " " ++ description)) k = true)
        ∨ category = some "Network Connection Issues")
    ∧ (∀ i : Fin randFallbackChoices.length, randFallbackChoices.get i ≠ "P2") := by
  refine ⟨?_, ?_, randFallback_ne_P2⟩
  · intro rules subject description category rand r hr hm hp
    exact determine_priority_p2_rule rules subject description category rand r hr hm hp
  · intro rules subject description category rand h
    exact determine_priority_P2_signals rules subject description category rand h

/-- Witness for C2: an unscoped P2 rule on "vpn" fires on "VPN down". -/
theorem c2_priority_precedence_witness :
    determine_priority [⟨"vpn", none, "P2"⟩] "VPN down" "today" none 0 = "P2" :=
  c2_priority_precedence.1 [⟨"vpn", none, "P2"⟩] "VPN down" "today" none 0
    ⟨"vpn", none, "P2"⟩ (by decide) (by decide) rfl

/-- C10: the caller-supplied priority argument never influences the stored
ticket — two `create_ticket` calls identical in everything but the priority
parameter (including the clock readings and the random draw of the
classifier) store the same priority, because `determine_priority` is total
(it always returns one of P2/P3/P4, never empty), so the `or priority`
fallback to the argument is never taken. -/
theorem c10_priority_arg_noninterference :
    (∀ (rules : List PriorityRule) (cfg : List SlaConfig)
        (techs : List Technician) (tickets : List TicketRow)
        (id user_id subject description : String) (category : Option String)
        (p1 p2 : String) (rand : Fin 5) (nowApp nowDb : Int) (nowIst : Nat)
        (assignRaises : Bool),
        (create_ticket rules cfg techs tickets id user_id subject description
            category p1 rand nowApp nowDb nowIst assignRaises).priority
          = (create_ticket rules cfg techs tickets id user_id subject description
            category p2 rand nowApp nowDb nowIst assignRaises).priority)
    ∧ (∀ (rules : List PriorityRule) (subject description : String)
        (category : Option String) (rand : Fin 5),
        determine_priority rules subject description category rand
          ∈ (["P2", "P3", "P4"] : List String)) := by
  constructor
  · intro rules cfg techs tickets id user_id subject description category p1 p2
      rand nowApp nowDb nowIst assignRaises
    obtain ⟨hp1, -, -, -, -⟩ := create_ticket_proj rules cfg techs tickets id user_id
      subject description category p1 rand nowApp nowDb nowIst assignRaises
    obtain ⟨hp2, -, -, -, -⟩ := create_ticket_proj rules cfg techs tickets id user_id
      subject description category p2 rand nowApp nowDb nowIst assignRaises
    rw [hp1, hp2]
    have hmem := determine_priority_mem rules subject description category rand
    have hne : determine_priority rules subject description category rand ≠ "" := by
      rcases (by simpa using hmem : _ ∨ _ ∨ _) with h | h | h <;> rw [h] <;> decide
    unfold create_ticket_priority
    simp [hne]
  · intro rules subject description category rand
    exact determine_priority_mem rules subject description category rand

/-! ## C5 — the session state stays in a closed set -/

theorem incident_go_back_mem {l s : String}
    (h : incident_go_back_state l = some s) : s ∈ codeStates := by
  unfold incident_go_back_state at h
  split_ifs at h
  all_goals first
    | (have he := Option.some_injective _ h; subst he; decide)
    | exact absurd h (by simp)

set_option maxHeartbeats 1000000 in
theorem request_go_back_mem {l v s : String}
    (h : request_go_back_state l v = some s) : s ∈ codeStates := by
  unfold request_go_back_state at h
  split_ifs at h
  all_goals first
    | (have he := Option.some_injective _ h; subst he; decide)
    | exact absurd h (by simp)

theorem handle_go_back_state (st : ConvState) (h : st.state ∈ codeStates) :
    (handle_go_back st).1.state ∈ codeStates := by
  obtain ⟨sst, nav⟩ := st
  rcases nav with _ | ⟨x, rest⟩
  · exact h
  · rcases rest with _ | ⟨⟨pl, pv⟩, tl⟩
    · exact h
    · simp only [handle_go_back]
      split_ifs with hreq
      · cases hr : request_go_back_state pl pv with
        | none => exact h
        | some s => exact request_go_back_mem hr
      · cases hr : incident_go_back_state pl with
        | none => exact h
        | some s => exact incident_go_back_mem hr

theorem handle_free_text_state (b : Bool) (ag : AgentOutcome) (st : ConvState)
    (h : st.state ∈ codeStates) : (handle_free_text b ag st).state ∈ codeStates := by
  unfold handle_free_text
  split_ifs with h1 h2 h3 h4 h5 h6
  · exact h
  · simp [codeStates]
  · simp [codeStates]
  · simp [codeStates]
  · simp [codeStates]
  · simp [codeStates]
  · cases ag with
    | ticketCreated => simp [codeStates]
    | escalatedNoTicket => simp [codeStates]
    | solution => simp [codeStates]
    | raises found => cases found <;> simp [codeStates]

theorem handle_action_state_mem (a : ChatAction) (st : ConvState)
    (h : st.state ∈ codeStates) : (handle_action a st).1.state ∈ codeStates := by
  cases a with
  | start => simp [handle_action, handle_start, create_initial_state, codeStates]
  | restart => simp [handle_action, handle_start, create_initial_state, codeStates]
  | select_ticket_type v =>
      simp only [handle_action, handle_select_ticket_type, handle_start,
        create_initial_state]
      split_ifs <;> simp [codeStates]
  | select_smart_category v => simp [handle_action, codeStates]
  | select_category v => simp [handle_action, codeStates]
  | select_type v => simp [handle_action, codeStates]
  | select_item v => simp [handle_action, codeStates]
  | select_issue v parses found =>
      cases parses <;> cases found <;>
        first | exact h | simp [handle_action, codeStates]
  | other_issue => simp [handle_action, codeStates]
  | free_text b ag => exact handle_free_text_state b ag st h
  | solution_resolved => simp [handle_action, codeStates]
  | solution_not_resolved => simp [handle_action, codeStates]
  | agent_continue => simp [handle_action, codeStates]
  | preview_ticket => simp [handle_action, codeStates]
  | confirm_ticket => simp [handle_action, codeStates]
  | decline_ticket => simp [handle_action, codeStates]
  | go_back => exact handle_go_back_state st h
  | end_action => simp [handle_action, codeStates]
  | select_request_category v =>
      simp only [handle_action, handle_request_category]
      split_ifs <;> simp [codeStates]
  | select_hardware_item v =>
      simp only [handle_action, handle_hardware_item]
      split_ifs <;> simp [codeStates]
  | select_hardware_brand v =>
      simp only [handle_action, handle_hardware_brand]
      split_ifs <;> simp [codeStates]
  | select_software_action v => simp [handle_action, handle_software_action, codeStates]
  | select_software_item v =>
      simp only [handle_action, handle_software_item]
      split_ifs <;> simp [codeStates]
  | select_access_type v =>
      simp only [handle_action, handle_access_type]
      split_ifs <;> first | exact h | simp [codeStates]
  | confirm_internet_access => simp [handle_action, codeStates]
  | select_folder_permission v => simp [handle_action, codeStates]
  | submit_request => simp [handle_action, codeStates]
  | check_approval => simp [handle_action, codeStates]
  | solution_helpful v => exact h
  | submit_rating parses =>
      cases parses <;> first | exact h | simp [handle_action, codeStates]
  | skip_rating => simp [handle_action, codeStates]
  | submit_feedback_text => simp [handle_action, codeStates]
  | skip_feedback_text => simp [handle_action, codeStates]
  | unknown n => simp [handle_action, handle_start, create_initial_state, codeStates]

theorem chatStep_state_mem (inp : ChatInput) (st : ConvState)
    (h : st.state ∈ codeStates) : (chatStep inp st).state ∈ codeStates := by
  have h1 := handle_action_state_mem (resolveAction inp st) st h
  simp only [chatStep]
  by_cases hg : (handle_action (resolveAction inp st) st).2.1 = true
  · rw [if_pos hg]
    simp [handle_action, handle_start, create_initial_state, codeStates]
  · rw [if_neg hg]
    by_cases hc : (handle_action (resolveAction inp st) st).2.2 = true
    · rw [if_pos hc]
      by_cases hcs : inp.createSucceeds = true
      · rw [if_pos hcs]
        simp [codeStates]
      · rw [if_neg hcs]
        exact h1
    · rw [if_neg hc]
      exact h1

/-- C5 counterexample: from a fresh session, the single inbound action
`skip_rating` drives the session's `state` to `feedback_complete`, which is
not a member of the closed state set enumerated in §4.1 (even reading its
"sub-variants" clause generously). -/
theorem c5_counterexample :
    (runChat [⟨some ChatAction.skip_rating, false, false, AgentOutcome.solution, true⟩]
        create_initial_state).state ∉ spec41States := by decide

/-- C5 (amended): for every sequence of inbound turns (valid or invalid,
including unknown action strings and adversarial free text) applied to a
fresh session, the session's `state` field stays inside the closed set of
states the code itself assigns (`codeStates`); that set, however, exceeds
the §4.1 enumeration by `feedback_complete` and `manager_approved`, so
membership in the §4.1 list itself does not hold (see the
counterexample). -/
theorem c5_state_membership (inps : List ChatInput) :
    (runChat inps create_initial_state).state ∈ codeStates := by
  have main : ∀ (l : List ChatInput) (st : ConvState), st.state ∈ codeStates →
      (runChat l st).state ∈ codeStates := by
    intro l
    induction l with
    | nil =>
        intro st h
        exact h
    | cons i tl ih =>
        intro st h
        have hstep : runChat (i :: tl) st = runChat tl (chatStep i st) := rfl
        rw [hstep]
        exact ih _ (chatStep_state_mem i st h)
  exact main inps create_initial_state (by decide)

end TicketSystem
